import Mathlib

/-!
Verification development for the QR Code Generator API service.

The embedding follows the source files:
- `project/api_key_verification_service.py` — API-key verification against
  the Credential Record store (the `User` table, queried by unique `apiKey`).
- `project/generate_qr_code_service.py` — QR-code generation: correction-level
  mapping, encoder construction, response assembly.
- `project/server.py` — the HTTP façade: both routes call the operation inside
  a try/except and convert any raised failure to a `{error: message}` payload
  with status 500.

The external store lookup and the encoder are collaborators outside this
repository; where their behaviour decides a property they are modelled
explicitly (see the doc comments on `QRCode_new` and `recoveryPercent`).
Fresh identifier minting (`uuid.uuid4()`) is modelled by passing the freshly
minted identifier as an explicit argument.
-/

/-- A row of the `User` table: the Credential Record —
`id` (identity), `role`, and the unique `apiKey` field. -/
structure User where
  id : String
  role : String
  apiKey : String
deriving DecidableEq, Repr

/-- Response model of `api_key_verification_service.APIKeyVerificationResponse`. -/
structure APIKeyVerificationResponse where
  is_valid : Bool
  user_id : Option String
  role : Option String
deriving DecidableEq, Repr

/-- `prisma.models.User.prisma().find_unique(where={"apiKey": api_key})` on a
store of rows: the record whose `apiKey` field exactly equals the key, if any. -/
def findUnique (store : List User) (api_key : String) : Option User :=
  store.find? (fun u => u.apiKey == api_key)

/-- Body of `api_key_verification` given the outcome of the store lookup
(`Except.error` models the external store raising a fault, which the service
propagates — it has no recovery or retry path). -/
def api_key_verification_run (lookup : Except String (Option User)) :
    Except String APIKeyVerificationResponse :=
  match lookup with
  | Except.error e => Except.error e
  | Except.ok (some user) =>
      Except.ok ⟨true, some user.id, some user.role⟩
  | Except.ok none => Except.ok ⟨false, none, none⟩

/-- `api_key_verification` against a healthy store: the lookup succeeds and
returns `findUnique store api_key`. -/
def api_key_verification (store : List User) (api_key : String) :
    APIKeyVerificationResponse :=
  match api_key_verification_run (Except.ok (findUnique store api_key)) with
  | Except.ok r => r
  | Except.error _ => ⟨false, none, none⟩

/-- One verification call as a state transition on the store: the source
performs a read-only lookup (`find_unique`) and never mutates the store. -/
def api_key_verification_step (store : List User) (api_key : String) :
    List User × APIKeyVerificationResponse :=
  (store, api_key_verification store api_key)

/-- An HTTP route outcome: either the operation's payload returned as a
normal success response, or the error envelope built in the `except` branch
(`{"error": str(e)}` with `status_code=500`). -/
inductive RouteResult (α : Type) where
  | ok (payload : α)
  | errorEnvelope (status : Nat) (error : String)
deriving DecidableEq, Repr

/-- The `try/except` boundary shared by both routes in `server.py`: a normal
return passes through; any raised failure becomes
`Response(content={"error": str(e)}, status_code=500)`. -/
def facade {α : Type} (op : Except String α) : RouteResult α :=
  match op with
  | Except.ok a => RouteResult.ok a
  | Except.error e => RouteResult.errorEnvelope 500 e

/-- Route `POST /auth/verify` (`api_post_api_key_verification`), parametrised
by the outcome of the external store lookup. -/
def api_post_api_key_verification (lookup : Except String (Option User)) :
    RouteResult APIKeyVerificationResponse :=
  facade (api_key_verification_run lookup)

/-- `ContentType` enum of `generate_qr_code_service.py`. -/
inductive ContentType where
  | URL
  | TEXT
  | CONTACT
deriving DecidableEq, Repr

/-- `CorrectionLevel` enum of `generate_qr_code_service.py`. -/
inductive CorrectionLevel where
  | L
  | M
  | Q
  | H
deriving DecidableEq, Repr

/-- `Format` enum of `generate_qr_code_service.py`. -/
inductive Format where
  | PNG
  | SVG
deriving DecidableEq, Repr

/-- Response model `GenerateQRCodeResponse`. -/
structure GenerateQRCodeResponse where
  success : Bool
  message : String
  qrCodeId : String
  qrCodeURL : String
deriving DecidableEq, Repr

/-- `qrcode.constants.ERROR_CORRECT_L` of the qrcode library (version 7.4.2). -/
def ERROR_CORRECT_L : Nat := 1

/-- `qrcode.constants.ERROR_CORRECT_M` of the qrcode library (version 7.4.2). -/
def ERROR_CORRECT_M : Nat := 0

/-- `qrcode.constants.ERROR_CORRECT_Q` of the qrcode library (version 7.4.2). -/
def ERROR_CORRECT_Q : Nat := 3

/-- `qrcode.constants.ERROR_CORRECT_H` of the qrcode library (version 7.4.2). -/
def ERROR_CORRECT_H : Nat := 2

/-- Python `str.lower()` as used in the source (`img_format.lower()`): the
string with every character lower-cased; the source only ever applies it to
the ASCII format names "PNG" and "SVG". -/
def str_lower (s : String) : String :=
  String.mk (s.data.map Char.toLower)

/-- The runtime dictionary `error_correction_mapping` built inside
`generate_qr_code`, as an association list in source order. -/
def error_correction_mapping : List (CorrectionLevel × Nat) :=
  [(CorrectionLevel.L, ERROR_CORRECT_L),
   (CorrectionLevel.M, ERROR_CORRECT_M),
   (CorrectionLevel.Q, ERROR_CORRECT_Q),
   (CorrectionLevel.H, ERROR_CORRECT_H)]

/-- Python dictionary lookup `error_correction_mapping[correctionLevel]`:
the value for the key if present. -/
def dictLookup (lvl : CorrectionLevel) : Option Nat :=
  (error_correction_mapping.find? (fun p => p.1 == lvl)).map (fun p => p.2)

/-- The subscript expression `error_correction_mapping[correctionLevel]` as a
fallible step: a missing key raises `KeyError`. -/
def lookup_error_correction (lvl : CorrectionLevel) : Except String Nat :=
  match dictLookup lvl with
  | some c => Except.ok c
  | none => Except.error "KeyError"

/-- Modelled from the spec: the approximate redundancy (percent of codewords
recoverable) at each encoder constant — the spec orders the four discrete
levels as monotonic in redundancy L < M < Q < H (§4.2 step 1). The numeric
recovery capacities belong to the external encoder library, which is not part
of this repository. -/
def recoveryPercent (c : Nat) : Nat :=
  if c = ERROR_CORRECT_L then 7
  else if c = ERROR_CORRECT_M then 15
  else if c = ERROR_CORRECT_Q then 25
  else if c = ERROR_CORRECT_H then 30
  else 0

/-- The module/box scale the source derives from the requested pixel size:
`size // 40`, Python floor division on a (possibly negative) integer. -/
def derived_box_scale (size : Int) : Int :=
  Int.fdiv size 40

/-- The parameters held by a constructed `qrcode.QRCode` object. -/
structure QRCodeParams where
  version : Nat
  error_correction : Nat
  box_size : Int
  border : Nat
deriving DecidableEq, Repr

/-- Modelled from the spec: the external encoder's constructor validation.
The encoder library (`qrcode.QRCode`, not part of this repository) rejects a
degenerate box size — the spec requires a non-positive module scale to "fail
visibly rather than silently producing a malformed image" (§4.2 step 2), and
the library raises `ValueError` whenever `box_size <= 0`. -/
def QRCode_new (version : Nat) (error_correction : Nat) (box_size : Int)
    (border : Nat) : Except String QRCodeParams :=
  if box_size ≤ 0 then
    Except.error ("Invalid box size (was " ++ toString box_size ++
      ", expected larger than 0)")
  else
    Except.ok ⟨version, error_correction, box_size, border⟩

/-- Everything the generation operation feeds to the encoder: the constructed
`QRCode` parameters, `qr.add_data(content)`, `qr.make(fit=True)`, and the
`make_image`/`save` arguments. -/
structure EncoderInput where
  params : QRCodeParams
  data : String
  fit : Bool
  fill_color : String
  back_color : String
  save_format : String
deriving DecidableEq, Repr

/-- `generate_qr_code` with its encoder interaction made observable: returns
the encoder input next to the response. `fresh_id` is the freshly minted
`str(uuid.uuid4())` of this call. The declared `contentType` parameter is
accepted but, as in the source, never read. -/
def generate_qr_code_run (contentType : ContentType) (content : String)
    (size : Int) (color : String) (correctionLevel : CorrectionLevel)
    (format : Format) (fresh_id : String) :
    Except String (EncoderInput × GenerateQRCodeResponse) :=
  match lookup_error_correction correctionLevel with
  | Except.error e => Except.error e
  | Except.ok ec =>
    match QRCode_new 1 ec (derived_box_scale size) 4 with
    | Except.error e => Except.error e
    | Except.ok qr =>
      let img_format := if format = Format.PNG then "PNG" else "SVG"
      let enc : EncoderInput := ⟨qr, content, true, color, "white", img_format⟩
      let qr_code_url :=
        (("/path/to/qr/" ++ fresh_id) ++ ".") ++ str_lower img_format
      Except.ok (enc,
        ⟨true, "QR Code generated successfully.", fresh_id, qr_code_url⟩)

/-- `generate_qr_code` as the source returns it: the response alone. -/
def generate_qr_code (contentType : ContentType) (content : String)
    (size : Int) (color : String) (correctionLevel : CorrectionLevel)
    (format : Format) (fresh_id : String) :
    Except String GenerateQRCodeResponse :=
  (generate_qr_code_run contentType content size color correctionLevel format
    fresh_id).map Prod.snd

/-- Route `POST /qr/generate` (`api_post_generate_qr_code`): the façade
around `generate_qr_code`. -/
def api_post_generate_qr_code (contentType : ContentType) (content : String)
    (size : Int) (color : String) (correctionLevel : CorrectionLevel)
    (format : Format) (fresh_id : String) :
    RouteResult GenerateQRCodeResponse :=
  facade (generate_qr_code contentType content size color correctionLevel
    format fresh_id)

/-! ### Helper definitions for the analysis -/

/-- The encoder constant each correction level is mapped to (case summary of
the dictionary in the source). -/
def ecConst : CorrectionLevel → Nat
  | CorrectionLevel.L => ERROR_CORRECT_L
  | CorrectionLevel.M => ERROR_CORRECT_M
  | CorrectionLevel.Q => ERROR_CORRECT_Q
  | CorrectionLevel.H => ERROR_CORRECT_H

/-- The `img_format` string the source computes:
`"PNG" if format == Format.PNG else "SVG"`. -/
def fmtName : Format → String
  | Format.PNG => "PNG"
  | Format.SVG => "SVG"

/-- The location string a successful generation returns. -/
def expected_url (fresh_id : String) (fmt : Format) : String :=
  (("/path/to/qr/" ++ fresh_id) ++ ".") ++ str_lower (fmtName fmt)

/-! ### Helper lemmas -/

theorem lookup_error_correction_eq (lvl : CorrectionLevel) :
    lookup_error_correction lvl = Except.ok (ecConst lvl) := by
  cases lvl <;> rfl

theorem generate_qr_code_run_eq (ct : ContentType) (content : String)
    (size : Int) (color : String) (lvl : CorrectionLevel) (fmt : Format)
    (fresh_id : String) :
    generate_qr_code_run ct content size color lvl fmt fresh_id =
      if derived_box_scale size ≤ 0 then
        Except.error ("Invalid box size (was " ++
          toString (derived_box_scale size) ++ ", expected larger than 0)")
      else
        Except.ok
          (⟨⟨1, ecConst lvl, derived_box_scale size, 4⟩, content, true, color,
            "white", fmtName fmt⟩,
           ⟨true, "QR Code generated successfully.", fresh_id,
            expected_url fresh_id fmt⟩) := by
  unfold generate_qr_code_run
  rw [lookup_error_correction_eq]
  unfold QRCode_new
  by_cases hb : derived_box_scale size ≤ 0 <;>
    cases fmt <;>
      simp [hb, expected_url, fmtName, ecConst]

theorem generate_ok_iff (ct : ContentType) (content : String) (size : Int)
    (color : String) (lvl : CorrectionLevel) (fmt : Format) (fresh_id : String)
    (r : GenerateQRCodeResponse) :
    generate_qr_code ct content size color lvl fmt fresh_id = Except.ok r ↔
      ¬ derived_box_scale size ≤ 0 ∧
        r = ⟨true, "QR Code generated successfully.", fresh_id,
             expected_url fresh_id fmt⟩ := by
  rw [generate_qr_code, generate_qr_code_run_eq]
  by_cases hb : derived_box_scale size ≤ 0
  · simp [hb, Except.map]
  · simp [hb, Except.map, eq_comm]

theorem findUnique_eq_some (store : List User) (u : User)
    (huniq : store.Pairwise (fun a b => a.apiKey ≠ b.apiKey))
    (hmem : u ∈ store) : findUnique store u.apiKey = some u := by
  induction store with
  | nil => cases hmem
  | cons v vs ih =>
    rw [List.pairwise_cons] at huniq
    rcases List.mem_cons.mp hmem with h | h
    · subst h
      exact List.find?_cons_of_pos _ (by simp)
    · have hne : v.apiKey ≠ u.apiKey := huniq.1 u h
      rw [findUnique, List.find?_cons_of_neg _ (by simp [hne])]
      exact ih huniq.2 h

theorem findUnique_eq_none (store : List User) (api_key : String)
    (h : ∀ u ∈ store, u.apiKey ≠ api_key) : findUnique store api_key = none := by
  rw [findUnique, List.find?_eq_none]
  intro u hu
  simp [h u hu]

/-! ### Claims -/

/-- C1: For every API key for which a Credential Record with an exactly
equal `apiKey` field exists in the store, the verification route returns
`{is_valid=true, user_id=the record's identity, role=the record's role}`;
for every key with no matching record it returns
`{is_valid=false, user_id=none, role=none}` — in both cases delivered as a
normal success response, never as an error envelope. -/
theorem verify_key_contract (store : List User) (api_key : String)
    (huniq : store.Pairwise (fun a b => a.apiKey ≠ b.apiKey)) :
    (∀ u ∈ store, u.apiKey = api_key →
      api_post_api_key_verification (Except.ok (findUnique store api_key)) =
        RouteResult.ok ⟨true, some u.id, some u.role⟩) ∧
    ((∀ u ∈ store, u.apiKey ≠ api_key) →
      api_post_api_key_verification (Except.ok (findUnique store api_key)) =
        RouteResult.ok ⟨false, none, none⟩) := by
  constructor
  · intro u hu hk
    subst hk
    rw [api_post_api_key_verification, findUnique_eq_some store u huniq hu]
    rfl
  · intro h
    rw [api_post_api_key_verification, findUnique_eq_none store api_key h]
    rfl

/-- Witness for `verify_key_contract` at a concrete one-record store. -/
theorem verify_key_contract_witness :
    api_post_api_key_verification
        (Except.ok (findUnique [⟨"u1", "ADMIN", "key-1"⟩] "key-1")) =
      RouteResult.ok ⟨true, some "u1", some "ADMIN"⟩ ∧
    api_post_api_key_verification
        (Except.ok (findUnique [⟨"u1", "ADMIN", "key-1"⟩] "bogus")) =
      RouteResult.ok ⟨false, none, none⟩ :=
  ⟨(verify_key_contract [⟨"u1", "ADMIN", "key-1"⟩] "key-1" (by simp)).1
      ⟨"u1", "ADMIN", "key-1"⟩ (by simp) rfl,
   (verify_key_contract [⟨"u1", "ADMIN", "key-1"⟩] "bogus" (by simp)).2
      (by decide)⟩

/-- C2: Every raised failure inside either operation is converted by the
HTTP façade, on both routes, into the fixed-shape payload `{error: message}`
with server-error status 500 — the same envelope constructor whatever the
error message, with no error-kind discrimination. -/
theorem facade_error_envelope (e : String)
    (lookup : Except String (Option User)) (ct : ContentType)
    (content : String) (size : Int) (color : String)
    (lvl : CorrectionLevel) (fmt : Format) (fresh_id : String) :
    (api_key_verification_run lookup = Except.error e →
      api_post_api_key_verification lookup =
        RouteResult.errorEnvelope 500 e) ∧
    (generate_qr_code ct content size color lvl fmt fresh_id =
        Except.error e →
      api_post_generate_qr_code ct content size color lvl fmt fresh_id =
        RouteResult.errorEnvelope 500 e) := by
  constructor
  · intro h
    rw [api_post_api_key_verification, h]
    rfl
  · intro h
    rw [api_post_generate_qr_code, h]
    rfl

/-- Witness for `facade_error_envelope`: a store fault on the verification
route and a degenerate-size encoder rejection on the generation route. -/
theorem facade_error_envelope_witness :
    api_post_api_key_verification (Except.error "boom") =
      RouteResult.errorEnvelope 500 "boom" ∧
    api_post_generate_qr_code ContentType.TEXT "hi" 0 "#000000"
        CorrectionLevel.L Format.SVG "id0" =
      RouteResult.errorEnvelope 500
        "Invalid box size (was 0, expected larger than 0)" :=
  ⟨(facade_error_envelope "boom" (Except.error "boom") ContentType.TEXT "hi"
      0 "#000000" CorrectionLevel.L Format.SVG "id0").1 rfl,
   (facade_error_envelope "Invalid box size (was 0, expected larger than 0)"
      (Except.error "boom") ContentType.TEXT "hi" 0 "#000000"
      CorrectionLevel.L Format.SVG "id0").2 rfl⟩

/-- C9: the verification operation is idempotent and deterministic — one
call leaves the store unchanged, and a second call with the same key against
the resulting store returns the identical result. -/
theorem verify_key_idempotent (store : List User) (api_key : String) :
    (api_key_verification_step store api_key).1 = store ∧
    (api_key_verification_step
        (api_key_verification_step store api_key).1 api_key).2 =
      (api_key_verification_step store api_key).2 :=
  ⟨rfl, rfl⟩

/-- C3: the module/box scale the generation operation passes to the encoder
constructor equals `floor(size / 40)`, and the border thickness passed equals
the constant 4, whatever the requested size. -/
theorem box_scale_and_border (ct : ContentType) (content : String)
    (size : Int) (color : String) (lvl : CorrectionLevel) (fmt : Format)
    (fresh_id : String) (enc : EncoderInput) (resp : GenerateQRCodeResponse)
    (h : generate_qr_code_run ct content size color lvl fmt fresh_id =
      Except.ok (enc, resp)) :
    enc.params.box_size = Int.fdiv size 40 ∧ enc.params.border = 4 := by
  rw [generate_qr_code_run_eq] at h
  by_cases hb : derived_box_scale size ≤ 0
  · rw [if_pos hb] at h
    exact absurd h (by simp)
  · rw [if_neg hb] at h
    simp only [Except.ok.injEq, Prod.mk.injEq] at h
    rw [← h.1]
    exact ⟨rfl, rfl⟩

/-- Witness for `box_scale_and_border` at size 300 (scale 7). -/
theorem box_scale_and_border_witness :
    (⟨⟨1, ERROR_CORRECT_Q, 7, 4⟩, "https://example.com", true, "#00008B",
        "white", "PNG"⟩ : EncoderInput).params.box_size = Int.fdiv 300 40 ∧
    (⟨⟨1, ERROR_CORRECT_Q, 7, 4⟩, "https://example.com", true, "#00008B",
        "white", "PNG"⟩ : EncoderInput).params.border = 4 :=
  box_scale_and_border ContentType.URL "https://example.com" 300 "#00008B"
    CorrectionLevel.Q Format.PNG "id0" _ _ rfl

/-- C5: every successful generation response has `success=true`, the exact
message "QR Code generated successfully.", the freshly minted identifier,
and a location equal to the fixed "/path/to/qr/" prefix, the identifier, a
dot and the lower-cased format name — hence ending in ".png" for PNG and in
".svg" for SVG. -/
theorem success_response_shape (ct : ContentType) (content : String)
    (size : Int) (color : String) (lvl : CorrectionLevel) (fmt : Format)
    (fresh_id : String) (r : GenerateQRCodeResponse)
    (h : generate_qr_code ct content size color lvl fmt fresh_id =
      Except.ok r) :
    r.success = true ∧
    r.message = "QR Code generated successfully." ∧
    r.qrCodeId = fresh_id ∧
    r.qrCodeURL =
      ("/path/to/qr/" ++ fresh_id) ++ ("." ++ str_lower (fmtName fmt)) ∧
    (fmt = Format.PNG →
      r.qrCodeURL = ("/path/to/qr/" ++ fresh_id) ++ ".png") ∧
    (fmt = Format.SVG →
      r.qrCodeURL = ("/path/to/qr/" ++ fresh_id) ++ ".svg") := by
  obtain ⟨-, hr⟩ := (generate_ok_iff ct content size color lvl fmt fresh_id
    r).mp h
  subst hr
  refine ⟨rfl, rfl, rfl, ?_, ?_, ?_⟩
  · exact String.append_assoc _ _ _
  · intro hf
    subst hf
    exact String.append_assoc _ _ _
  · intro hf
    subst hf
    exact String.append_assoc _ _ _

/-- Witness for `success_response_shape` at a concrete PNG request. -/
theorem success_response_shape_witness :
    (⟨true, "QR Code generated successfully.", "id0",
        "/path/to/qr/id0.png"⟩ : GenerateQRCodeResponse).success = true ∧
    (⟨true, "QR Code generated successfully.", "id0",
        "/path/to/qr/id0.png"⟩ : GenerateQRCodeResponse).message =
      "QR Code generated successfully." ∧
    (⟨true, "QR Code generated successfully.", "id0",
        "/path/to/qr/id0.png"⟩ : GenerateQRCodeResponse).qrCodeId = "id0" ∧
    (⟨true, "QR Code generated successfully.", "id0",
        "/path/to/qr/id0.png"⟩ : GenerateQRCodeResponse).qrCodeURL =
      ("/path/to/qr/" ++ "id0") ++ ("." ++ str_lower (fmtName Format.PNG)) ∧
    (Format.PNG = Format.PNG →
      (⟨true, "QR Code generated successfully.", "id0",
          "/path/to/qr/id0.png"⟩ : GenerateQRCodeResponse).qrCodeURL =
        ("/path/to/qr/" ++ "id0") ++ ".png") ∧
    (Format.PNG = Format.SVG →
      (⟨true, "QR Code generated successfully.", "id0",
          "/path/to/qr/id0.png"⟩ : GenerateQRCodeResponse).qrCodeURL =
        ("/path/to/qr/" ++ "id0") ++ ".svg") :=
  success_response_shape ContentType.URL "https://example.com" 300 "#00008B"
    CorrectionLevel.Q Format.PNG "id0" _ rfl

/-- C6: two generation requests identical except for the declared content
type, given the same freshly minted identifier, produce identical encoder
inputs and identical responses — the content type alters nothing. -/
theorem content_type_is_inert (ct1 ct2 : ContentType) (content : String)
    (size : Int) (color : String) (lvl : CorrectionLevel) (fmt : Format)
    (fresh_id : String) :
    generate_qr_code_run ct1 content size color lvl fmt fresh_id =
      generate_qr_code_run ct2 content size color lvl fmt fresh_id ∧
    generate_qr_code ct1 content size color lvl fmt fresh_id =
      generate_qr_code ct2 content size color lvl fmt fresh_id ∧
    api_post_generate_qr_code ct1 content size color lvl fmt fresh_id =
      api_post_generate_qr_code ct2 content size color lvl fmt fresh_id :=
  ⟨rfl, rfl, rfl⟩

/-- C7: two generation calls with identical parameters but distinct freshly
minted identifiers return responses carrying distinct identifiers — the
response identifier is exactly the fresh value minted for the call, not a
function of the request parameters. -/
theorem fresh_identifier_distinct (ct : ContentType) (content : String)
    (size : Int) (color : String) (lvl : CorrectionLevel) (fmt : Format)
    (id1 id2 : String) (hne : id1 ≠ id2)
    (r1 r2 : GenerateQRCodeResponse)
    (h1 : generate_qr_code ct content size color lvl fmt id1 = Except.ok r1)
    (h2 : generate_qr_code ct content size color lvl fmt id2 = Except.ok r2) :
    r1.qrCodeId = id1 ∧ r2.qrCodeId = id2 ∧ r1.qrCodeId ≠ r2.qrCodeId := by
  obtain ⟨-, hr1⟩ := (generate_ok_iff ct content size color lvl fmt id1
    r1).mp h1
  obtain ⟨-, hr2⟩ := (generate_ok_iff ct content size color lvl fmt id2
    r2).mp h2
  subst hr1
  subst hr2
  exact ⟨rfl, rfl, hne⟩

/-- Witness for `fresh_identifier_distinct`: two equal requests minting
"id-a" and "id-b". -/
theorem fresh_identifier_distinct_witness :
    (⟨true, "QR Code generated successfully.", "id-a",
        "/path/to/qr/id-a.png"⟩ : GenerateQRCodeResponse).qrCodeId = "id-a" ∧
    (⟨true, "QR Code generated successfully.", "id-b",
        "/path/to/qr/id-b.png"⟩ : GenerateQRCodeResponse).qrCodeId = "id-b" ∧
    (⟨true, "QR Code generated successfully.", "id-a",
        "/path/to/qr/id-a.png"⟩ : GenerateQRCodeResponse).qrCodeId ≠
      (⟨true, "QR Code generated successfully.", "id-b",
        "/path/to/qr/id-b.png"⟩ : GenerateQRCodeResponse).qrCodeId :=
  fresh_identifier_distinct ContentType.URL "https://example.com" 300
    "#00008B" CorrectionLevel.Q Format.PNG "id-a" "id-b" (by decide) _ _
    rfl rfl

/-- C10: the generation operation never returns a response with
`success=false` — every non-exceptional return value has `success=true`, so
failure is signalled exclusively by a raised exception. -/
theorem generation_success_flag_constant (ct : ContentType)
    (content : String) (size : Int) (color : String)
    (lvl : CorrectionLevel) (fmt : Format) (fresh_id : String)
    (r : GenerateQRCodeResponse)
    (h : generate_qr_code ct content size color lvl fmt fresh_id =
      Except.ok r) :
    r.success = true := by
  obtain ⟨-, hr⟩ := (generate_ok_iff ct content size color lvl fmt fresh_id
    r).mp h
  subst hr
  rfl

/-- Witness for `generation_success_flag_constant` at a concrete request. -/
theorem generation_success_flag_constant_witness :
    (⟨true, "QR Code generated successfully.", "id0",
        "/path/to/qr/id0.svg"⟩ : GenerateQRCodeResponse).success = true :=
  generation_success_flag_constant ContentType.CONTACT "BEGIN:VCARD" 80
    "#123456" CorrectionLevel.H Format.SVG "id0" _ rfl

/-- C4 counterexample: at requested size -1 (which is < 40) the derived
module scale is `(-1) // 40 = -1` under Python floor division, not zero, so
"the derived module scale is zero" fails for this size. -/
theorem degenerate_size_counterexample :
    (-1 : Int) < 40 ∧ derived_box_scale (-1) = -1 ∧
      ¬ derived_box_scale (-1) = 0 := by
  decide

/-- C4 (amended): for every generation request with size < 40 the derived
module scale is non-positive — and exactly zero whenever 0 ≤ size < 40 —
and the operation deterministically fails: the route returns the failure
envelope with server-error status 500 and never a response with
`success=true`. -/
theorem degenerate_size_fails (ct : ContentType) (content : String)
    (size : Int) (color : String) (lvl : CorrectionLevel) (fmt : Format)
    (fresh_id : String) (h : size < 40) :
    derived_box_scale size ≤ 0 ∧
    (0 ≤ size → derived_box_scale size = 0) ∧
    api_post_generate_qr_code ct content size color lvl fmt fresh_id =
      RouteResult.errorEnvelope 500 ("Invalid box size (was " ++
        toString (derived_box_scale size) ++ ", expected larger than 0)") ∧
    (∀ r, api_post_generate_qr_code ct content size color lvl fmt fresh_id ≠
      RouteResult.ok r) := by
  have hscale : derived_box_scale size ≤ 0 := by
    rw [derived_box_scale, Int.fdiv_eq_ediv _ (by decide)]
    omega
  have hzero : 0 ≤ size → derived_box_scale size = 0 := by
    intro h0
    rw [derived_box_scale, Int.fdiv_eq_ediv _ (by decide)]
    exact Int.ediv_eq_zero_of_lt h0 h
  have henv : api_post_generate_qr_code ct content size color lvl fmt
      fresh_id = RouteResult.errorEnvelope 500 ("Invalid box size (was " ++
        toString (derived_box_scale size) ++ ", expected larger than 0)") := by
    rw [api_post_generate_qr_code, generate_qr_code, generate_qr_code_run_eq,
      if_pos hscale]
    rfl
  refine ⟨hscale, hzero, henv, ?_⟩
  intro r hr
  rw [henv] at hr
  exact RouteResult.noConfusion hr

/-- Witness for `degenerate_size_fails` at size 0. -/
theorem degenerate_size_fails_witness :
    derived_box_scale 0 ≤ 0 ∧
    ((0 : Int) ≤ 0 → derived_box_scale 0 = 0) ∧
    api_post_generate_qr_code ContentType.URL "x" 0 "#000"
        CorrectionLevel.M Format.PNG "id0" =
      RouteResult.errorEnvelope 500 ("Invalid box size (was " ++
        toString (derived_box_scale 0) ++ ", expected larger than 0)") ∧
    (∀ r, api_post_generate_qr_code ContentType.URL "x" 0 "#000"
        CorrectionLevel.M Format.PNG "id0" ≠ RouteResult.ok r) :=
  degenerate_size_fails ContentType.URL "x" 0 "#000" CorrectionLevel.M
    Format.PNG "id0" (by decide)

/-- C8: for every one of the four enumerated correction levels the runtime
dictionary lookup succeeds — it never raises a key error, wherever it is
invoked — and it maps L, M, Q, H respectively to the encoder constants
`ERROR_CORRECT_L/M/Q/H`, whose redundancy is strictly monotonic
L < M < Q < H. -/
theorem correction_level_mapping :
    lookup_error_correction CorrectionLevel.L = Except.ok ERROR_CORRECT_L ∧
    lookup_error_correction CorrectionLevel.M = Except.ok ERROR_CORRECT_M ∧
    lookup_error_correction CorrectionLevel.Q = Except.ok ERROR_CORRECT_Q ∧
    lookup_error_correction CorrectionLevel.H = Except.ok ERROR_CORRECT_H ∧
    (∀ lvl : CorrectionLevel, (dictLookup lvl).isSome = true) ∧
    (∀ lvl : CorrectionLevel, ∀ e : String,
      lookup_error_correction lvl ≠ Except.error e) ∧
    recoveryPercent ERROR_CORRECT_L < recoveryPercent ERROR_CORRECT_M ∧
    recoveryPercent ERROR_CORRECT_M < recoveryPercent ERROR_CORRECT_Q ∧
    recoveryPercent ERROR_CORRECT_Q < recoveryPercent ERROR_CORRECT_H := by
  refine ⟨rfl, rfl, rfl, rfl, ?_, ?_, by decide, by decide, by decide⟩
  · intro lvl
    cases lvl <;> rfl
  · intro lvl e h
    cases lvl <;> exact Except.noConfusion h
